import Mathlib

/-!
Shallow embedding of the Blink-to-MQTT bridge (src/app/blink_service.py and
src/app/main.py).  The vendor library's state is represented by the raw
homescreen payload and the loaded camera objects; every service operation is
translated as a function of that state plus flags recording the outcome of
each awaited external call (which may raise).  Operations return
`Except String _`: an `Except.error` models an exception escaping to the
caller, an `Except.ok` models a normal return value.
-/

namespace BlinkBridge

/-- Scalar JSON-like value as stored in the raw homescreen dictionaries that
blink_service.py probes with dict.get. -/
inductive JVal where
  | s : String → JVal
  | i : Int → JVal
  | b : Bool → JVal
  | null : JVal
deriving DecidableEq, Repr

/-- A raw JSON object: an association list of key/value pairs (a Python dict,
keys in insertion order). -/
abbrev JObj := List (String × JVal)

/-- Python str() of a value, as in str(dev.get('id')) and the f-strings. -/
def JVal.pyStr : JVal → String
  | .s v => v
  | .i n => toString n
  | .b true => "True"
  | .b false => "False"
  | .null => "None"

/-- Rendering of a value inside json.dumps output. -/
def JVal.dump : JVal → String
  | .s v => "\"" ++ v ++ "\""
  | .i n => toString n
  | .b true => "true"
  | .b false => "false"
  | .null => "null"

/-- dict.get(k): the value stored under k, if any. -/
def JObj.get (o : JObj) (k : String) : Option JVal :=
  List.lookup k o

/-- dict.get(k, d): the value stored under k, or the default d. -/
def JObj.getD (o : JObj) (k : String) (d : JVal) : JVal :=
  (List.lookup k o).getD d

/-- dict assignment o[k] = v: replace the value in place if the key exists,
append the pair otherwise. -/
def JObj.set (o : JObj) (k : String) (v : JVal) : JObj :=
  if (List.lookup k o).isSome then
    o.map (fun kv => if kv.1 = k then (k, v) else kv)
  else o ++ [(k, v)]

/-- Textual stand-in for json.dumps of an object. -/
def JObj.dump (o : JObj) : String :=
  String.intercalate ", " (o.map (fun kv => "\"" ++ kv.1 ++ "\": " ++ kv.2.dump))

/-- The slice of blink.homescreen that blink_service.py reads: the optional
networks list ('networks' in homescreen) and the four device category lists
read with homescreen.get(category, []). -/
structure Homescreen where
  networks : Option (List JObj)
  owls : List JObj
  cameras : List JObj
  doorbells : List JObj
  chickadees : List JObj
deriving DecidableEq, Repr

/-- A loaded library camera object: the attributes blink_service.py probes. -/
structure Cam where
  camera_id : JVal
  attributes : JObj
deriving DecidableEq, Repr

/-- Category names iterated by download_thumbnails, get_status and
snap_picture (blink_service.py lines 111, 184, 253). -/
def categories : List String :=
  ["owls", "cameras", "doorbells", "chickadees"]

/-- homescreen.get(category, []) for the four category names. -/
def hsCat (h : Homescreen) (cat : String) : List JObj :=
  if cat = "owls" then h.owls
  else if cat = "cameras" then h.cameras
  else if cat = "doorbells" then h.doorbells
  else if cat = "chickadees" then h.chickadees
  else []

/-- all_devices collected by download_thumbnails (blink_service.py
lines 108-114): the category lists appended in order. -/
def allDevices (h : Homescreen) : List JObj :=
  categories.foldl (fun acc cat => acc ++ hsCat h cat) []

/-- raw_devices built by get_status (lines 182-187): same walk, but each item
gets item['category_type'] = category before being appended. -/
def rawDevices (h : Homescreen) : List JObj :=
  categories.foldl
    (fun acc cat => acc ++ (hsCat h cat).map (fun item => JObj.set item "category_type" (JVal.s cat)))
    []

/-- raw_devices guarded by hasattr(self.blink, 'homescreen'). -/
def rawDevicesO : Option Homescreen → List JObj
  | none => []
  | some h => rawDevices h

/-- name_counts.get(n, 0) after the counting loop of get_status
(lines 190-193): occurrences of the name value n among the devices, where a
device without a name counts under 'Unknown'. -/
def nameCount (devs : List JObj) (n : JVal) : Nat :=
  devs.countP (fun d => decide (JObj.getD d "name" (JVal.s "Unknown") = n))

/-- Temperature probe of get_status (lines 208-212): the first loaded camera
object whose str(camera_id) equals the device id string contributes
attributes.get('temperature', 0); otherwise 0. -/
def tempFor (cams : List (String × Cam)) (camId : String) : JVal :=
  match cams.find? (fun nc => nc.2.camera_id.pyStr == camId) with
  | some nc => JObj.getD nc.2.attributes "temperature" (JVal.i 0)
  | none => JVal.i 0

/-- One element of the cameras list built by get_status (lines 195-221).
devs is the full raw device list (used for the duplicate-name count). -/
def camEntry (devs : List JObj) (cams : List (String × Cam)) (dev : JObj) : JObj :=
  let originalName := JObj.getD dev "name" (JVal.s "Unknown")
  let camId := (JObj.getD dev "id" JVal.null).pyStr
  let displayName : JVal :=
    if nameCount devs originalName > 1 then
      JVal.s (originalName.pyStr ++ " (" ++ (JObj.getD dev "type" (JVal.s "cam")).pyStr ++ ")")
    else originalName
  let online : Bool :=
    match JObj.get dev "status" with
    | none => true
    | some v => decide (v ≠ JVal.s "offline")
  [("name", displayName),
   ("id", JVal.s camId),
   ("serial", JObj.getD dev "serial" JVal.null),
   ("temperature", tempFor cams camId),
   ("online", JVal.b online),
   ("raw_json", JVal.s (JObj.dump dev))]

/-- Global arm check of get_status (lines 175-179): true when the homescreen
attribute exists, has a networks list, and some network has armed is True. -/
def isArmed (hs : Option Homescreen) : Bool :=
  match hs with
  | none => false
  | some h =>
    match h.networks with
    | none => false
    | some nets => nets.any (fun net => decide (JObj.get net "armed" = some (JVal.b true)))

/-- The dict returned by get_status when self.blink is set (lines 228-233). -/
structure Status where
  armed : Bool
  status_str : String
  cameras : List JObj
  raw_json : String
deriving DecidableEq, Repr

/-- Stand-in for json.dumps of the debug_data dict (lines 223-226). -/
def debugJson (hs : Option Homescreen) (devs : List JObj) : String :=
  (match hs with
   | some h => String.intercalate "; " ((h.networks.getD []).map JObj.dump)
   | none => "No Data")
  ++ " | " ++ String.intercalate "; " (devs.map JObj.dump)

/-- Body of get_status after the guard and the swallowed refresh attempt
(blink_service.py lines 171-233): a pure computation over the homescreen
payload and the loaded camera objects. -/
def statusOf (hs : Option Homescreen) (cams : List (String × Cam)) : Status :=
  let devs := rawDevicesO hs
  { armed := isArmed hs
    status_str := if isArmed hs then "Armed" else "Disarmed"
    cameras := devs.map (camEntry devs cams)
    raw_json := debugJson hs devs }

/-- Outcome of the awaited blink.start() call inside login. -/
inductive StartOutcome where
  | ok
  | twofa
  | fail
deriving DecidableEq, Repr

/-- BlinkService.login (blink_service.py lines 34-63).  credsLoaded: the
credentials file existed and json_load returned truthy data (its exceptions
are caught at lines 41-42); haveUserPass: both username and password
arguments were truthy; start: outcome of blink.start(), where a
BlinkTwoFARequiredError gives twofa; saveOk: blink.save completed, any
exception there being caught by the same handler as a FAILED login. -/
def login (credsLoaded haveUserPass : Bool) (start : StartOutcome) (saveOk : Bool) :
    Except String String :=
  if !credsLoaded && !haveUserPass then Except.ok "CONFIG_REQUIRED"
  else
    match start with
    | .twofa => Except.ok "2FA_REQUIRED"
    | .fail => Except.ok "FAILED"
    | .ok => if saveOk then Except.ok "SUCCESS" else Except.ok "FAILED"

/-- BlinkService.validate_2fa (lines 65-79).  blinkReady: self.blink and
self.blink.auth are both set; extOk: the awaited verification and save
sequence completed without raising (all its exceptions are caught). -/
def validate_2fa (blinkReady extOk : Bool) : Except String Bool :=
  if !blinkReady then Except.ok false
  else if extOk then Except.ok true
  else Except.ok false

/-- BlinkService.arm_system (lines 81-94).  arm is the requested flag; extOk:
the async_arm loop and the forced refresh completed without raising (any
exception is caught and turned into False). -/
def arm_system (blinkPresent arm extOk : Bool) : Except String Bool :=
  if !blinkPresent then Except.ok false
  else
    let _ := arm
    if extOk then Except.ok true else Except.ok false

/-- BlinkService.refresh (lines 96-100).  There is no try/except here: an
exception from the awaited blink.refresh propagates to the caller.
download_thumbnails (lines 102-161) wraps each per-device download in its own
try/except and never raises. -/
def refresh (blinkPresent refreshRaises : Bool) : Except String Unit :=
  if !blinkPresent then Except.ok ()
  else if refreshRaises then Except.error "blink.refresh raised"
  else Except.ok ()

/-- BlinkService.get_status (lines 163-233): returns the empty dict (none)
when self.blink is unset; the internal refresh attempt is wrapped in
try/except (lines 166-169) so refreshRaises never affects the caller. -/
def get_status (blinkPresent refreshRaises : Bool) (hs : Option Homescreen)
    (cams : List (String × Cam)) : Except String (Option Status) :=
  if !blinkPresent then Except.ok none
  else
    let _ := refreshRaises
    Except.ok (some (statusOf hs cams))

/-- Externally visible actions of snap_picture, in program order. -/
inductive SnapEffect where
  | snapCmd
  | refreshCall
  | thumbDownload
deriving DecidableEq, Repr

/-- Where, if anywhere, the awaited calls inside the snap try-block raise. -/
inductive SnapRun where
  | ok
  | failSnap
  | failRefresh
deriving DecidableEq, Repr

/-- raw_data search of snap_picture (lines 250-257): the inner break keeps the
first match within a category; a match in a later category overwrites it. -/
def findCategoryMatch (hs : Homescreen) (target : String) : Option JObj :=
  categories.foldl
    (fun acc cat =>
      match (hsCat hs cat).find? (fun item => (JObj.getD item "id" JVal.null).pyStr == target) with
      | some item => some item
      | none => acc)
    none

/-- BlinkService.snap_picture (lines 235-282): result together with the list
of externally visible actions attempted, in order.  The target is first
looked up among the loaded camera objects by str(camera_id), then
reconstructed from the homescreen categories by str(item.get('id')); with no
match it returns None before the try-block.  Exceptions inside the try-block
are caught and give None. -/
def snap_picture (blinkPresent : Bool) (cams : List (String × Cam))
    (hs : Option Homescreen) (run : SnapRun) (targetId : String) :
    Except String (Option String × List SnapEffect) :=
  if !blinkPresent then Except.ok (none, [])
  else
    let fromCams := (cams.find? (fun nc => nc.2.camera_id.pyStr == targetId)).isSome
    let fromRaw :=
      match hs with
      | some h => (findCategoryMatch h targetId).isSome
      | none => false
    if !fromCams && !fromRaw then Except.ok (none, [])
    else
      match run with
      | .failSnap => Except.ok (none, [SnapEffect.snapCmd])
      | .failRefresh => Except.ok (none, [SnapEffect.snapCmd, SnapEffect.refreshCall])
      | .ok =>
        Except.ok (some ("/images/" ++ targetId ++ ".jpg"),
          [SnapEffect.snapCmd, SnapEffect.refreshCall, SnapEffect.thumbDownload])

/-- self.images_dir set in BlinkService.__init__ (line 20). -/
def images_dir : String := "/config/images"

/-- File path written by download_thumbnails for a device id (line 144). -/
def thumbWritePath (camId : String) : String :=
  images_dir ++ "/" ++ camId ++ ".jpg"

/-- Directory the /images URL path is mounted on (main.py line 220). -/
def imagesMountDirectory : String := "/app/images"

/-- File served for the URL /images/p by the static mount. -/
def staticServedFile (p : String) : String :=
  imagesMountDirectory ++ "/" ++ p

/-- URL path returned by snap_picture on success (blink_service.py line 279). -/
def snapReturnPath (targetId : String) : String :=
  "/images/" ++ targetId ++ ".jpg"

/-- Whether an operation returned normally (no exception escaped). -/
def exceptOk {ε α : Type} : Except ε α → Bool
  | Except.ok _ => true
  | Except.error _ => false

/-- update_data (main.py lines 134-148): on success system_state becomes
CONNECTED; every statement is inside the try, so on any exception the state
is simply left unchanged. -/
def updateData (st : String) (ok : Bool) : String :=
  if ok then "CONNECTED" else st

/-- Tail of one poll_blink iteration (main.py lines 190-204): sleep the poll
interval, then, when connected, run update_data; the except at line 204 sets
ERROR if that call raises (updRaises).  Second component: sleep durations. -/
def pollTail (st : String) (updOk updRaises : Bool) (interval : Nat) :
    String × List Nat :=
  if st = "CONNECTED" then
    ((if updRaises then "ERROR" else updateData st updOk), [interval])
  else (st, [interval])

/-- One iteration of the poll_blink loop body (main.py lines 172-204).
loginRes is the string BlinkService.login returned; updOk1 is the outcome of
the update_data call after a successful login (line 181); updOk2 and
updRaises2 belong to the update_data call after the interval sleep
(lines 201-204).  Note that the 2FA_REQUIRED branch has no continue: it falls
through to the interval sleep.  Second component: sleep durations, in order. -/
def poll_blink_iter (st loginRes : String) (updOk1 updOk2 updRaises2 : Bool)
    (interval : Nat) : String × List Nat :=
  if st = "WAITING_2FA" then (st, [5])
  else if st ≠ "CONNECTED" then
    if loginRes = "SUCCESS" then
      pollTail (updateData "CONNECTED" updOk1) updOk2 updRaises2 interval
    else if loginRes = "2FA_REQUIRED" then
      pollTail "WAITING_2FA" updOk2 updRaises2 interval
    else ("ERROR", [30])
  else pollTail st updOk2 updRaises2 interval

/-- A scheduler event that can touch system_state: one poll_blink iteration,
the verify_2fa web handler (main.py lines 228-234), or any task ending in
update_data (perform_action from the /arm route or MQTT, trigger_snap from
the /snap route or MQTT). -/
inductive Event where
  | poll (loginRes : String) (updOk1 updOk2 updRaises2 : Bool) (interval : Nat)
  | verify (ok updOk : Bool)
  | action (updOk : Bool)

/-- Effect of one event on system_state.  verify_2fa sets CONNECTED and runs
update_data when validate_2fa returned True, else leaves the state alone. -/
def stepState (st : String) : Event → String
  | .poll r u1 u2 ur i => (poll_blink_iter st r u1 u2 ur i).1
  | .verify ok u => if ok then updateData "CONNECTED" u else st
  | .action u => updateData st u

/-- system_state values reachable from the initial assignment
(main.py line 26) under any interleaving of events. -/
inductive ReachableState : String → Prop where
  | init : ReachableState "STARTING"
  | step {st : String} (e : Event) : ReachableState st → ReachableState (stepState st e)

/-- The locally owned configuration record: the keys of self.data in
ConfigManager.__init__ (main.py lines 33-42). -/
structure ConfigData where
  mqtt_broker : String
  mqtt_port : Int
  mqtt_username : String
  mqtt_password : String
  poll_interval : Int
  username : String
  password : String
deriving DecidableEq, Repr

/-- Default self.data (main.py lines 33-42), with the environment-variable
fallbacks of a bare container. -/
def defaultConfig : ConfigData :=
  { mqtt_broker := "192.168.0.100"
    mqtt_port := 1883
    mqtt_username := ""
    mqtt_password := ""
    poll_interval := 3600
    username := ""
    password := "" }

/-- A YAML scalar as stored by this config file. -/
inductive YVal where
  | str : String → YVal
  | int : Int → YVal
deriving DecidableEq, Repr

/-- yaml.dump of the config dict: one key/value pair per field, in the dict's
insertion order. -/
def ConfigData.dump (c : ConfigData) : List (String × YVal) :=
  [("mqtt_broker", YVal.str c.mqtt_broker),
   ("mqtt_port", YVal.int c.mqtt_port),
   ("mqtt_username", YVal.str c.mqtt_username),
   ("mqtt_password", YVal.str c.mqtt_password),
   ("poll_interval", YVal.int c.poll_interval),
   ("username", YVal.str c.username),
   ("password", YVal.str c.password)]

/-- self.data.update applied to a single key/value pair read from the YAML
file: a known key takes the new value, anything else leaves the record as is. -/
def ConfigData.updateOne (c : ConfigData) : String × YVal → ConfigData
  | ("mqtt_broker", YVal.str v) => { c with mqtt_broker := v }
  | ("mqtt_port", YVal.int v) => { c with mqtt_port := v }
  | ("mqtt_username", YVal.str v) => { c with mqtt_username := v }
  | ("mqtt_password", YVal.str v) => { c with mqtt_password := v }
  | ("poll_interval", YVal.int v) => { c with poll_interval := v }
  | ("username", YVal.str v) => { c with username := v }
  | ("password", YVal.str v) => { c with password := v }
  | _ => c

/-- ConfigManager.load (main.py lines 45-50): merge the parsed file, if any,
into the current data; a missing or unreadable file (the caught exception)
leaves the data unchanged. -/
def ConfigManager.load (c : ConfigData) (file : Option (List (String × YVal))) :
    ConfigData :=
  match file with
  | none => c
  | some kvs => kvs.foldl ConfigData.updateOne c

/-- ConfigManager.save (main.py lines 52-54): yaml.dump(self.data) into the
config file. -/
def ConfigManager.save (c : ConfigData) : List (String × YVal) :=
  ConfigData.dump c

/-- An HTTP response as produced by the handlers in main.py. -/
inductive Response where
  | htmlPage (template : String)
  | redirect (location : String) (statusCode : Nat)
deriving DecidableEq, Repr

/-- Whether a response is a redirect. -/
def Response.isRedirect : Response → Bool
  | .redirect _ _ => true
  | _ => false

/-- GET / handler (main.py lines 222-226): renders the index.html template
with the current state, data and config as context. -/
def index (st : String) : Response :=
  let _ := st
  Response.htmlPage "index.html"

/-- POST /verify_2fa handler (main.py lines 228-234): on a successful
validate_2fa it sets system_state to CONNECTED and runs update_data;
it redirects to / with 303 in every case. -/
def verify_2fa (st : String) (validateOk updOk : Bool) : String × Response :=
  ((if validateOk then updateData "CONNECTED" updOk else st),
   Response.redirect "/" 303)

/-- POST /snap/name handler (main.py lines 236-239): awaits trigger_snap and
redirects to / with 303 whatever the snapshot outcome. -/
def snap_route (blinkPresent : Bool) (cams : List (String × Cam))
    (hs : Option Homescreen) (run : SnapRun) (name : String) :
    Except String (Option String × List SnapEffect) × Response :=
  (snap_picture blinkPresent cams hs run name, Response.redirect "/" 303)

/-- POST /arm handler (main.py lines 241-244): chooses arm for action ARM and
disarm otherwise, then redirects to / with 303. -/
def arm_route (action : String) : String × Response :=
  ((if action = "ARM" then "arm" else "disarm"), Response.redirect "/" 303)

/-- POST /save_config handler (main.py lines 246-253): overwrites the broker
and poll-interval fields, saves, and redirects to / with 303. -/
def save_config (c : ConfigData) (broker : String) (interval : Int) :
    ConfigData × Response :=
  ({ c with mqtt_broker := broker, poll_interval := interval },
   Response.redirect "/" 303)

/-- A concrete homescreen: one armed network and one owl device. -/
def hsEx : Homescreen :=
  { networks := some [[("armed", JVal.b true)]]
    owls := [[("id", JVal.i 1), ("name", JVal.s "Door"), ("serial", JVal.s "S1"),
              ("thumbnail", JVal.s "/thumb/1.jpg")]]
    cameras := []
    doorbells := []
    chickadees := [] }

/-- A homescreen with no networks attribute and no devices. -/
def emptyHS : Homescreen :=
  { networks := none, owls := [], cameras := [], doorbells := [], chickadees := [] }

/-- Two raw devices sharing the display name Porch. -/
def devA : JObj := [("id", JVal.i 1), ("name", JVal.s "Porch")]

/-- Second device named Porch, with an explicit type field. -/
def devB : JObj := [("id", JVal.i 2), ("name", JVal.s "Porch"), ("type", JVal.s "owl")]

/-- The four system_state values the code itself documents (main.py line 26). -/
def codeStates : List String :=
  ["STARTING", "CONNECTED", "WAITING_2FA", "ERROR"]

/-- The four coarse states named by the spec. -/
def specStates : List String :=
  ["CONNECTED", "WAITING_2FA", "CONFIG_REQUIRED", "ERROR"]

theorem pollTail_fst (s : String) (u ur : Bool) (i : Nat) :
    (pollTail s u ur i).1 = s ∨ (pollTail s u ur i).1 = "CONNECTED" ∨
      (pollTail s u ur i).1 = "ERROR" := by
  unfold pollTail updateData
  split
  · cases ur <;> cases u <;> simp_all
  · simp

theorem poll_blink_iter_fst (st r : String) (u1 u2 ur : Bool) (i : Nat) :
    (poll_blink_iter st r u1 u2 ur i).1 = st
    ∨ (poll_blink_iter st r u1 u2 ur i).1 = "CONNECTED"
    ∨ (poll_blink_iter st r u1 u2 ur i).1 = "WAITING_2FA"
    ∨ (poll_blink_iter st r u1 u2 ur i).1 = "ERROR" := by
  unfold poll_blink_iter
  split
  · simp
  · split
    · split
      · rcases pollTail_fst (updateData "CONNECTED" u1) u2 ur i with h | h | h
        · cases u1 <;> simp_all [updateData]
        · simp [h]
        · simp [h]
      · split
        · rcases pollTail_fst "WAITING_2FA" u2 ur i with h | h | h <;> simp [h]
        · simp
    · rcases pollTail_fst st u2 ur i with h | h | h <;> simp [h]

theorem stepState_mem (st : String) (e : Event) (h : st ∈ codeStates) :
    stepState st e ∈ codeStates := by
  cases e with
  | poll r u1 u2 ur i =>
    rcases poll_blink_iter_fst st r u1 u2 ur i with h1 | h1 | h1 | h1 <;>
      simp only [stepState, h1] <;> simp_all [codeStates]
  | verify ok u =>
    simp only [stepState]
    cases ok <;> cases u <;> simp_all [updateData, codeStates]
  | action u =>
    simp only [stepState]
    cases u <;> simp_all [updateData, codeStates]

/-- C1 (counterexample): the initial system_state value STARTING is reachable
(it is the value before the first event) but is not one of the four values
the spec names, so system_state does not stay within the spec's state set. -/
theorem C1_counterexample :
    ReachableState "STARTING" ∧ "STARTING" ∉ specStates :=
  ⟨ReachableState.init, by decide⟩

/-- C1 (amended): every reachable value of system_state lies in the code's own
four-value set STARTING, CONNECTED, WAITING_2FA, ERROR; in particular the
CONFIG_REQUIRED result of login is never stored in system_state. -/
theorem system_state_invariant {st : String} (h : ReachableState st) :
    st ∈ codeStates := by
  induction h with
  | init => decide
  | step e _ ih => exact stepState_mem _ e ih

/-- Witness for system_state_invariant at the initial state. -/
theorem system_state_invariant_witness : "STARTING" ∈ codeStates :=
  system_state_invariant ReachableState.init

/-- C2 (counterexample): in the very iteration in which login returns
2FA_REQUIRED the loop falls through to the poll-interval sleep (there is no
continue after main.py line 184), so with the default interval that iteration
sleeps 3600 seconds, not 5. -/
theorem C2_counterexample :
    poll_blink_iter "STARTING" "2FA_REQUIRED" true true false 3600 =
      ("WAITING_2FA", [3600]) ∧ (3600 : Nat) ≠ 5 :=
  ⟨rfl, by decide⟩

/-- C2 (amended): lifecycle of the poll loop.  While waiting for a two-factor
code each iteration sleeps 5 seconds and does nothing else; from a
non-connected, non-waiting state a SUCCESS login connects and the iteration
sleeps the configurable interval (default 3600) before the next refresh; a
2FA_REQUIRED login enters the waiting state but that same iteration still
sleeps the poll interval (the 5-second polling starts with the following
iterations); any other login result gives ERROR and a 30-second sleep before
retrying; a connected iteration sleeps the interval and refreshes; a
submitted code makes the verify handler set CONNECTED. -/
theorem poll_lifecycle (st r : String) (u1 u2 : Bool) (i : Nat) :
    defaultConfig.poll_interval = 3600
    ∧ poll_blink_iter "WAITING_2FA" r u1 u2 false i = ("WAITING_2FA", [5])
    ∧ (st ≠ "WAITING_2FA" → st ≠ "CONNECTED" → r = "SUCCESS" →
        poll_blink_iter st r u1 u2 false i = ("CONNECTED", [i]))
    ∧ (st ≠ "WAITING_2FA" → st ≠ "CONNECTED" → r = "2FA_REQUIRED" →
        poll_blink_iter st r u1 u2 false i = ("WAITING_2FA", [i]))
    ∧ (st ≠ "WAITING_2FA" → st ≠ "CONNECTED" → r ≠ "SUCCESS" → r ≠ "2FA_REQUIRED" →
        poll_blink_iter st r u1 u2 false i = ("ERROR", [30]))
    ∧ poll_blink_iter "CONNECTED" r u1 u2 false i = ("CONNECTED", [i])
    ∧ stepState "WAITING_2FA" (Event.verify true u1) = "CONNECTED" := by
  refine ⟨rfl, rfl, ?_, ?_, ?_, ?_, ?_⟩
  · intro h1 h2 h3
    subst h3
    cases u1 <;> cases u2 <;> simp [poll_blink_iter, pollTail, updateData, h1, h2]
  · intro h1 h2 h3
    subst h3
    cases u2 <;> simp [poll_blink_iter, pollTail, updateData, h1, h2]
  · intro h1 h2 h3 h4
    simp [poll_blink_iter, pollTail, updateData, h1, h2, h3, h4]
  · cases u2 <;> simp [poll_blink_iter, pollTail, updateData]
  · cases u1 <;> simp [stepState, updateData]

/-- Witness for poll_lifecycle: a hard login failure from the initial state
goes to ERROR and sleeps 30 seconds. -/
theorem poll_lifecycle_witness :
    poll_blink_iter "STARTING" "FAILED" true true false 3600 = ("ERROR", [30]) :=
  (poll_lifecycle "STARTING" "FAILED" true true 3600).2.2.2.2.1
    (by decide) (by decide) (by decide) (by decide)

/-- C3 (counterexample): BlinkService.refresh has no try/except, so when
self.blink is set and the library refresh raises, the exception propagates to
the caller instead of being caught and logged. -/
theorem C3_counterexample :
    refresh true true = Except.error "blink.refresh raised" := rfl

/-- C3 (amended): login, validate_2fa, arm_system, get_status and
snap_picture catch every failure of their awaited external calls and return
their failure value (a status string, False, None or the empty dict);
refresh alone propagates exceptions from the library refresh call, and its
callers (update_data, get_status) are the ones that catch them. -/
theorem ops_catch_failures :
    (∀ cl hup start saveOk, exceptOk (login cl hup start saveOk) = true)
    ∧ (∀ br ok, exceptOk (validate_2fa br ok) = true)
    ∧ (∀ bp a ok, exceptOk (arm_system bp a ok) = true)
    ∧ (∀ bp rr hs cams, exceptOk (get_status bp rr hs cams) = true)
    ∧ (∀ bp cams hs run t, exceptOk (snap_picture bp cams hs run t) = true)
    ∧ exceptOk (refresh true true) = false := by
  refine ⟨?_, ?_, ?_, ?_, ?_, rfl⟩
  · intro cl hup start saveOk
    cases cl <;> cases hup <;> cases start <;> cases saveOk <;> rfl
  · intro br ok
    cases br <;> cases ok <;> rfl
  · intro bp a ok
    cases bp <;> cases a <;> cases ok <;> rfl
  · intro bp rr hs cams
    cases bp <;> rfl
  · intro bp cams hs run t
    unfold snap_picture
    split
    · rfl
    · dsimp only
      split
      · rfl
      · cases run <;> rfl

/-- C4: saving a configuration record and loading it back over the default
record returns the record that was saved, and loading the same file a second
time changes nothing. -/
theorem config_roundtrip (c : ConfigData) :
    ConfigManager.load defaultConfig (some (ConfigManager.save c)) = c
    ∧ ConfigManager.load (ConfigManager.load defaultConfig (some (ConfigManager.save c)))
        (some (ConfigManager.save c))
      = ConfigManager.load defaultConfig (some (ConfigManager.save c)) := by
  constructor <;>
    simp [ConfigManager.load, ConfigManager.save, ConfigData.dump, ConfigData.updateOne]

/-- The networks list get_status scans, empty when the homescreen attribute or
its networks key is missing. -/
def networksOf : Option Homescreen → List JObj
  | none => []
  | some h => h.networks.getD []

/-- C5 (counterexample): on a homescreen with one armed network and one owl
device, the status record get_status builds is armed, but its single camera
entry has no thumbnail key at all (its keys end with raw_json instead). -/
theorem C5_counterexample :
    ((statusOf (some hsEx) []).cameras.map (fun e => (JObj.get e "thumbnail").isSome))
      = [false]
    ∧ (statusOf (some hsEx) []).armed = true := by
  constructor <;> rfl

/-- C5 (amended): whenever get_status returns a status record (self.blink is
set), its armed flag is true iff some network of the homescreen payload has
armed set to true, and every camera entry carries exactly the keys name, id,
serial, temperature, online and raw_json: a raw JSON dump takes the place the
claim gives to a thumbnail field. -/
theorem get_status_spec (bp rr : Bool) (hs : Option Homescreen)
    (cams : List (String × Cam)) (st : Status)
    (h : get_status bp rr hs cams = Except.ok (some st)) :
    (st.armed = true ↔ ∃ net ∈ networksOf hs, JObj.get net "armed" = some (JVal.b true))
    ∧ ∀ e ∈ st.cameras, e.map Prod.fst =
        ["name", "id", "serial", "temperature", "online", "raw_json"] := by
  cases bp with
  | false => simp [get_status] at h
  | true =>
    simp only [get_status, Bool.not_true, if_neg] at h
    have hst : st = statusOf hs cams := by
      cases h
      rfl
    subst hst
    constructor
    · cases hs with
      | none => simp [statusOf, isArmed, networksOf]
      | some h' =>
        cases hn : h'.networks with
        | none => simp [statusOf, isArmed, networksOf, hn]
        | some nets =>
          simp [statusOf, isArmed, networksOf, hn, List.any_eq_true]
    · intro e he
      simp only [statusOf, List.mem_map] at he
      obtain ⟨d, _, rfl⟩ := he
      simp [camEntry]

/-- Witness for get_status_spec on the concrete homescreen hsEx. -/
theorem get_status_spec_witness :
    ((statusOf (some hsEx) []).armed = true ↔
      ∃ net ∈ networksOf (some hsEx), JObj.get net "armed" = some (JVal.b true)) :=
  (get_status_spec true false (some hsEx) [] (statusOf (some hsEx) []) rfl).1

/-- C6: the device list of download_thumbnails and the raw device list of
get_status are exactly the owls, cameras, doorbells and chickadees category
lists appended in order (get_status tagging each item with its category), so
every device occurs exactly once per occurrence in the category lists. -/
theorem devices_union (h : Homescreen) (d : JObj) :
    allDevices h = h.owls ++ h.cameras ++ h.doorbells ++ h.chickadees
    ∧ (allDevices h).count d
        = h.owls.count d + h.cameras.count d + h.doorbells.count d + h.chickadees.count d
    ∧ rawDevices h
        = h.owls.map (fun o => JObj.set o "category_type" (JVal.s "owls"))
          ++ h.cameras.map (fun o => JObj.set o "category_type" (JVal.s "cameras"))
          ++ h.doorbells.map (fun o => JObj.set o "category_type" (JVal.s "doorbells"))
          ++ h.chickadees.map (fun o => JObj.set o "category_type" (JVal.s "chickadees")) := by
  refine ⟨?_, ?_, ?_⟩
  · simp [allDevices, categories, hsCat]
  · simp [allDevices, categories, hsCat, List.count_append]
    ring
  · simp [rawDevices, categories, hsCat]

/-- C7 (counterexample): the root status/config page handler returns the
rendered index.html template, not a redirect. -/
theorem C7_counterexample :
    index "CONNECTED" = Response.htmlPage "index.html"
    ∧ (index "CONNECTED").isRedirect = false :=
  ⟨rfl, rfl⟩

/-- C7 (amended): the four POST endpoints (two-factor submission, snapshot
trigger, arm/disarm, config save) redirect to / with status 303 for every
request, whatever the underlying operation did; the root GET endpoint instead
renders the HTML status/config page. -/
theorem endpoints_redirect (st : String) (vOk uOk bp : Bool)
    (cams : List (String × Cam)) (hs : Option Homescreen) (run : SnapRun)
    (name action broker : String) (c : ConfigData) (interval : Int) :
    (verify_2fa st vOk uOk).2 = Response.redirect "/" 303
    ∧ (snap_route bp cams hs run name).2 = Response.redirect "/" 303
    ∧ (arm_route action).2 = Response.redirect "/" 303
    ∧ (save_config c broker interval).2 = Response.redirect "/" 303
    ∧ (index st).isRedirect = false :=
  ⟨rfl, rfl, rfl, rfl, rfl⟩

/-- C8 (code bug): download_thumbnails and snap_picture write thumbnails under
/config/images and snap_picture answers with the URL path /images/id.jpg, but
main.py mounts the /images URL on the directory /app/images, so the file that
URL serves is not the file that was just written. -/
theorem C8_bug :
    thumbWritePath "1234" = "/config/images/1234.jpg"
    ∧ staticServedFile "1234.jpg" = "/app/images/1234.jpg"
    ∧ snapReturnPath "1234" = "/images/1234.jpg"
    ∧ thumbWritePath "1234" ≠ staticServedFile "1234.jpg" := by
  refine ⟨rfl, rfl, rfl, ?_⟩
  decide

/-- C9: display-name disambiguation in get_status.  For a device of the raw
list, a name occurring exactly once is kept as the display name; a name
occurring more than once becomes "name (type)" using the device's own type
field, which defaults to cam when absent. -/
theorem display_name_disambiguation (devs : List JObj) (cams : List (String × Cam))
    (d : JObj) (hmem : d ∈ devs) :
    (nameCount devs (JObj.getD d "name" (JVal.s "Unknown")) = 1 →
      JObj.get (camEntry devs cams d) "name"
        = some (JObj.getD d "name" (JVal.s "Unknown")))
    ∧ (nameCount devs (JObj.getD d "name" (JVal.s "Unknown")) > 1 →
      JObj.get (camEntry devs cams d) "name"
        = some (JVal.s ((JObj.getD d "name" (JVal.s "Unknown")).pyStr
            ++ " (" ++ (JObj.getD d "type" (JVal.s "cam")).pyStr ++ ")"))) := by
  have _ := hmem
  constructor
  · intro h1
    simp [camEntry, JObj.get, h1]
  · intro h1
    simp [camEntry, JObj.get, h1]

/-- Witness for display_name_disambiguation: two devices both named Porch, the
second of type owl, so its entry shows Porch (owl). -/
theorem display_name_disambiguation_witness :
    JObj.get (camEntry [devA, devB] [] devB) "name" = some (JVal.s "Porch (owl)") :=
  (display_name_disambiguation [devA, devB] [] devB (by decide)).2 (by decide)

/-- C10: snap_picture on an unknown target id.  When no loaded camera object
matches by str(camera_id) and no homescreen category item matches by
str(item.get('id')), snap_picture returns None having attempted no snap
command, no refresh and no thumbnail download. -/
theorem snap_picture_unknown_target (bp : Bool) (cams : List (String × Cam))
    (hs : Option Homescreen) (run : SnapRun) (t : String)
    (hc : cams.find? (fun nc => nc.2.camera_id.pyStr == t) = none)
    (hh : ∀ h, hs = some h → findCategoryMatch h t = none) :
    snap_picture bp cams hs run t = Except.ok (none, []) := by
  cases bp with
  | false => rfl
  | true =>
    cases hs with
    | none => simp [snap_picture, hc]
    | some h => simp [snap_picture, hc, hh h rfl]

/-- Witness for snap_picture_unknown_target: no loaded cameras, an empty
homescreen, target id 99. -/
theorem snap_picture_unknown_target_witness :
    snap_picture true [] (some emptyHS) SnapRun.ok "99" = Except.ok (none, []) :=
  snap_picture_unknown_target true [] (some emptyHS) SnapRun.ok "99" rfl
    (by intro h hh; cases hh; rfl)

end BlinkBridge
